import Mathlib

/-!
Shallow embedding of the lightning-cart-rs payment engine
(crates pay-core, pay-stripe, pay-api) and proofs about it.

Rust strings are modelled by Lean `String`; where the code compares raw
UTF-8 bytes the embedding goes through an explicit byte encoding
(`strBytes`).  Machine integers (`i64`, `u32`) are modelled by `Int`/`Nat`
with explicit range checks where the code can fail (integer parsing).
Fallible Rust code returning `Result<T, PaymentError>` becomes
`Except PaymentError T`.  External collaborators (the HTTP client, the
serde JSON parser, the hmac/sha2 crates, std `HashMap`) are modelled as
function parameters or as association lists, never as repository code.
-/

set_option maxHeartbeats 1000000

instance {ε α : Type} [DecidableEq ε] [DecidableEq α] : DecidableEq (Except ε α) :=
  fun a b =>
    match a, b with
    | .error x, .error y =>
      if h : x = y then .isTrue (congrArg Except.error h)
      else .isFalse (fun hc => h (Except.error.inj hc))
    | .error _, .ok _ => .isFalse (fun hc => Except.noConfusion hc)
    | .ok _, .error _ => .isFalse (fun hc => Except.noConfusion hc)
    | .ok x, .ok y =>
      if h : x = y then .isTrue (congrArg Except.ok h)
      else .isFalse (fun hc => h (Except.ok.inj hc))

namespace LightningCart

/-- Supported currencies, from pay-core/src/product.rs `enum Currency`. -/
inductive Currency where
  | USD | EUR | GBP | JPY | CAD | AUD | CHF | MXN
  deriving DecidableEq, Repr

/-- ISO code string, from `Currency::as_str`. -/
def Currency.as_str : Currency → String
  | .USD => "usd"
  | .EUR => "eur"
  | .GBP => "gbp"
  | .JPY => "jpy"
  | .CAD => "cad"
  | .AUD => "aud"
  | .CHF => "chf"
  | .MXN => "mxn"

/-- Billing interval, from pay-core/src/product.rs `enum BillingInterval`. -/
inductive BillingInterval where
  | OneTime | Weekly | Monthly | Yearly
  deriving DecidableEq, Repr

/-- Price in smallest currency unit, from pay-core/src/product.rs `struct Price`. -/
structure Price where
  amount : Int
  currency : Currency
  deriving DecidableEq, Repr

/-- Product type, from pay-core/src/product.rs `enum ProductType`. -/
inductive ProductType where
  | Digital | Subscription | ApiAccess | Physical
  deriving DecidableEq, Repr

/-- A catalog product, from pay-core/src/product.rs `struct Product`.
Metadata maps (std `HashMap<String, String>`) are modelled as association
lists; only lookup semantics matter. -/
structure Product where
  id : String
  name : String
  description : String
  product_type : ProductType
  price : Price
  billing_interval : BillingInterval
  active : Bool
  image_url : Option String
  metadata : List (String × String)
  deriving DecidableEq, Repr

/-- A line item, from pay-core/src/order.rs `struct LineItem`. -/
structure LineItem where
  product_id : String
  name : String
  description : Option String
  unit_price : Price
  quantity : Nat
  billing_interval : BillingInterval
  image_url : Option String
  deriving DecidableEq, Repr

/-- `LineItem::from_product` in pay-core/src/order.rs. -/
def LineItem.from_product (product : Product) (quantity : Nat) : LineItem :=
  { product_id := product.id
    name := product.name
    description := some product.description
    unit_price := product.price
    quantity := quantity
    billing_interval := product.billing_interval
    image_url := product.image_url }

/-- `LineItem::total` in pay-core/src/order.rs. -/
def LineItem.total (item : LineItem) : Price :=
  { amount := item.unit_price.amount * (item.quantity : Int)
    currency := item.unit_price.currency }

/-- Checkout mode, from pay-core/src/order.rs `enum CheckoutMode`. -/
inductive CheckoutMode where
  | Payment | Subscription | Setup
  deriving DecidableEq, Repr

/-- An order, from pay-core/src/order.rs `struct Order`.  The creation
timestamp is an abstract integer (chrono `DateTime<Utc>` is external). -/
structure Order where
  id : String
  line_items : List LineItem
  currency : Currency
  mode : CheckoutMode
  customer_email : Option String
  idempotency_key : Option String
  metadata : List (String × String)
  created_at : Int
  deriving DecidableEq, Repr

/-- `Order::new` in pay-core/src/order.rs.  The generated UUID, the
generated idempotency key and the clock reading are nondeterministic in
the source (`Uuid::new_v4`, `Utc::now`), so they are taken as parameters. -/
def Order.new (generated_id generated_key : String) (now : Int)
    (currency : Currency) : Order :=
  { id := generated_id
    line_items := []
    currency := currency
    mode := CheckoutMode.Payment
    customer_email := none
    idempotency_key := some generated_key
    metadata := []
    created_at := now }

/-- `Order::add_item` in pay-core/src/order.rs: auto-detects subscription
mode, then appends the item. -/
def Order.add_item (o : Order) (item : LineItem) : Order :=
  { o with
    mode := if item.billing_interval = BillingInterval.OneTime then o.mode
            else CheckoutMode.Subscription
    line_items := o.line_items ++ [item] }

/-- `Order::add_product` in pay-core/src/order.rs. -/
def Order.add_product (o : Order) (product : Product) (quantity : Nat) : Order :=
  o.add_item (LineItem.from_product product quantity)

/-- `Order::total` in pay-core/src/order.rs. -/
def Order.total (o : Order) : Price :=
  { amount := (o.line_items.map (fun item => item.total.amount)).sum
    currency := o.currency }

/-- `Order::is_empty` in pay-core/src/order.rs. -/
def Order.is_empty (o : Order) : Bool :=
  o.line_items.isEmpty

/-- Checkout session status, from pay-core/src/order.rs `enum CheckoutStatus`. -/
inductive CheckoutStatus where
  | Open | Complete | Expired | Failed | Cancelled
  deriving DecidableEq, Repr

/-- A checkout session, from pay-core/src/order.rs `struct CheckoutSession`. -/
structure CheckoutSession where
  session_id : String
  order_id : String
  provider : String
  checkout_url : String
  status : CheckoutStatus
  expires_at : Option Int
  payment_intent_id : Option String
  customer_id : Option String
  created_at : Int
  deriving DecidableEq, Repr

/-- Payment error taxonomy, from pay-core/src/error.rs `enum PaymentError`. -/
inductive PaymentError where
  | Configuration (msg : String)
  | InvalidRequest (msg : String)
  | ProductNotFound (product_id : String)
  | InvalidPrice (message : String)
  | UnsupportedCurrency (currency : String)
  | ProviderError (provider : String) (message : String)
  | NetworkError (msg : String)
  | WebhookVerificationFailed (msg : String)
  | WebhookParseError (msg : String)
  | CheckoutCreationFailed (msg : String)
  | SessionNotFound (session_id : String)
  | PaymentDeclined (reason : String)
  | IdempotencyConflict (key : String)
  | RateLimited (provider : String) (retry_after_secs : Nat)
  | Internal (msg : String)
  | Serialization (msg : String)
  deriving DecidableEq, Repr

-- =========================================================================
-- Site registry (pay-core/src/site.rs)
-- =========================================================================

/-- A tenant site, from pay-core/src/site.rs `struct Site`. -/
structure Site where
  id : String
  name : String
  domain : String
  statement_descriptor_suffix : String
  success_url : String
  cancel_url : String
  support_email : Option String
  active : Bool
  metadata : List (String × String)
  deriving DecidableEq, Repr

/-- The site registry, from pay-core/src/site.rs `struct SiteRegistry`. -/
structure SiteRegistry where
  sites : List Site
  default_site_id : Option String
  deriving DecidableEq, Repr

/-- `SiteRegistry::get` in pay-core/src/site.rs: finds a site by id,
filtering out inactive sites. -/
def SiteRegistry.get (reg : SiteRegistry) (site_id : String) : Option Site :=
  reg.sites.find? (fun s => s.id == site_id && s.active)

/-- `SiteRegistry::default_site` in pay-core/src/site.rs: resolve the
configured default id through `get`, else fall back to the first
registered site (`sites.first()`, which does not check `active`). -/
def SiteRegistry.default_site (reg : SiteRegistry) : Option Site :=
  (reg.default_site_id.bind (fun id => reg.get id)).orElse
    (fun _ => reg.sites.head?)

/-- `SiteRegistry::get_or_default` in pay-core/src/site.rs. -/
def SiteRegistry.get_or_default (reg : SiteRegistry) (site_id : Option String) :
    Option Site :=
  match site_id with
  | some id => (reg.get id).orElse (fun _ => reg.default_site)
  | none => reg.default_site

-- =========================================================================
-- Strings as UTF-8 byte sequences
-- =========================================================================

/-- UTF-8 encoding of one Unicode scalar value, as a list of byte values.
A Rust `str` is a sequence of UTF-8 bytes; `str::bytes()` yields exactly
this encoding of its characters. -/
def utf8EncodeChar (c : Char) : List Nat :=
  let n := c.toNat
  if n < 128 then [n]
  else if n < 2048 then
    [192 ||| (n >>> 6), 128 ||| (n &&& 63)]
  else if n < 65536 then
    [224 ||| (n >>> 12), 128 ||| ((n >>> 6) &&& 63), 128 ||| (n &&& 63)]
  else
    [240 ||| (n >>> 18), 128 ||| ((n >>> 12) &&& 63),
     128 ||| ((n >>> 6) &&& 63), 128 ||| (n &&& 63)]

/-- The UTF-8 bytes of a string: what Rust `str::bytes()` iterates and
what `str::len()` counts. -/
def strBytes (s : String) : List Nat :=
  s.data.flatMap utf8EncodeChar

/-- The XOR-accumulate loop of `constant_time_compare`
(pay-stripe/src/checkout.rs): OR together the XOR of every byte pair. -/
def xorAccum (pairs : List (Nat × Nat)) : Nat :=
  pairs.foldl (fun acc p => acc ||| (p.1 ^^^ p.2)) 0

/-- `constant_time_compare` in pay-stripe/src/checkout.rs: equal byte
length, then XOR-accumulate all byte pairs and require the accumulator to
be zero. -/
def constant_time_compare (a b : String) : Bool :=
  if (strBytes a).length ≠ (strBytes b).length then false
  else xorAccum ((strBytes a).zip (strBytes b)) == 0

-- =========================================================================
-- Webhook signature header parsing (pay-stripe/src/checkout.rs)
-- =========================================================================

/-- Rust `str::split(sep)` on a character separator: splitting the empty
string yields one empty field, and separators at the ends yield empty
fields. -/
def splitOnChar (sep : Char) : List Char → List (List Char)
  | [] => [[]]
  | c :: rest =>
    match splitOnChar sep rest with
    | [] => [[c]]
    | g :: gs => if c = sep then [] :: g :: gs else (c :: g) :: gs

/-- The comma-separated parts of a signature header
(`header.split(',')` in `parse_signature_header`). -/
def headerParts (header : String) : List String :=
  (splitOnChar ',' header.data).map (fun l => String.mk l)

/-- The `=`-separated components of one header part
(`part.split('=')` in `parse_signature_header`). -/
def partKV (part : String) : List String :=
  (splitOnChar '=' part.data).map (fun l => String.mk l)

/-- Rust `i64::from_str` (`kv[1].parse::<i64>()`): an optional sign
followed by at least one ASCII digit, rejecting values outside the
`i64` range. -/
def parseI64 (s : String) : Option Int :=
  let split : Bool × List Char :=
    match s.data with
    | '+' :: rest => (false, rest)
    | '-' :: rest => (true, rest)
    | cs => (false, cs)
  let neg := split.1
  let ds := split.2
  if ds.isEmpty then none
  else if ds.all Char.isDigit then
    let n : Nat := ds.foldl (fun acc c => acc * 10 + (c.toNat - 48)) 0
    let v : Int := if neg then -(n : Int) else (n : Int)
    if -(2 ^ 63) ≤ v ∧ v ≤ 2 ^ 63 - 1 then some v else none
  else none

/-- Parsed signature header, from pay-stripe/src/checkout.rs
`struct SignatureHeader`. -/
structure SignatureHeader where
  timestamp : Int
  signatures : List String
  deriving DecidableEq, Repr

/-- One step of the `for part in header.split(',')` loop of
`parse_signature_header`: a `t` key overwrites the timestamp with
`parse().ok()`, a `v1` key appends a signature, parts that do not split
into exactly two components and parts with any other key are skipped. -/
def parseHeaderStep (acc : Option Int × List String) (part : String) :
    Option Int × List String :=
  match partKV part with
  | [k, v] =>
    if k = "t" then (parseI64 v, acc.2)
    else if k = "v1" then (acc.1, acc.2 ++ [v])
    else acc
  | _ => acc

/-- The body of `parse_signature_header` applied to the already-split
parts list. -/
def parseSignatureParts (parts : List String) :
    Except PaymentError SignatureHeader :=
  let folded := parts.foldl parseHeaderStep (none, [])
  match folded.1 with
  | none =>
    Except.error (PaymentError.WebhookVerificationFailed
      "Missing timestamp in signature")
  | some ts =>
    if folded.2.isEmpty then
      Except.error (PaymentError.WebhookVerificationFailed
        "No v1 signature found")
    else Except.ok { timestamp := ts, signatures := folded.2 }

/-- `parse_signature_header` in pay-stripe/src/checkout.rs. -/
def parse_signature_header (header : String) :
    Except PaymentError SignatureHeader :=
  parseSignatureParts (headerParts header)

/-- A header part is a parseable `t=<integer>` segment: it splits into
exactly the key `t` and a value that parses as an `i64`. -/
def isParseableT (part : String) : Bool :=
  match partKV part with
  | [k, v] => k == "t" && (parseI64 v).isSome
  | _ => false

/-- A header part is a `v1` segment: it splits into exactly the key `v1`
and a value. -/
def isV1Segment (part : String) : Bool :=
  match partKV part with
  | [k, _] => k == "v1"
  | _ => false

/-- A header part carries an unknown key: it splits into exactly two
components whose key is neither `t` nor `v1`. -/
def isUnknownSegment (part : String) : Bool :=
  match partKV part with
  | [k, _] => !(k == "t") && !(k == "v1")
  | _ => false

-- =========================================================================
-- JSON values and the provider event envelope
-- =========================================================================

/-- A JSON value (model of `serde_json::Value`); objects are association
lists with the keys unique, numbers are modelled as integers (the only
numeric accessor the code uses is `as_i64`). -/
inductive Json where
  | null
  | bool (b : Bool)
  | num (n : Int)
  | str (s : String)
  | arr (elems : List Json)
  | obj (fields : List (String × Json))

/-- `serde_json::Value::as_str`. -/
def Json.as_str : Json → Option String
  | .str s => some s
  | _ => none

/-- `serde_json::Value::as_i64`: integer numbers in the `i64` range. -/
def Json.as_i64 : Json → Option Int
  | .num n => if -(2 ^ 63) ≤ n ∧ n ≤ 2 ^ 63 - 1 then some n else none
  | _ => none

/-- `serde_json::Value::as_object`. -/
def Json.as_object : Json → Option (List (String × Json))
  | .obj fields => some fields
  | _ => none

/-- Lookup in a `serde_json::Map<String, Value>`. -/
def jsonGet (fields : List (String × Json)) (key : String) : Option Json :=
  (fields.find? (fun p => p.1 == key)).map (fun p => p.2)

/-- `serde_json::Value::get` with a string index: lookup on objects,
`None` on everything else. -/
def Json.get (j : Json) (key : String) : Option Json :=
  match j with
  | .obj fields => jsonGet fields key
  | _ => none

/-- The provider event envelope, from pay-stripe/src/checkout.rs
`struct StripeWebhookEvent` / `struct StripeEventData`. -/
structure StripeWebhookEvent where
  id : String
  event_type : String
  created : Int
  data_object : List (String × Json)

/-- Normalized webhook event type, from pay-core/src/order.rs
`enum WebhookEventType`. -/
inductive WebhookEventType where
  | CheckoutCompleted
  | PaymentSucceeded
  | PaymentFailed
  | SubscriptionCreated
  | SubscriptionCancelled
  | SubscriptionRenewed
  | RefundIssued
  | Unknown (raw : String)
  deriving DecidableEq, Repr

/-- A normalized webhook event, from pay-core/src/order.rs
`struct WebhookEvent`. -/
structure WebhookEvent where
  event_id : String
  event_type : WebhookEventType
  provider : String
  session_id : Option String
  payment_intent_id : Option String
  customer_email : Option String
  amount_paid : Option Int
  currency : Option Currency
  raw_data : Option Json
  timestamp : Int

/-- The provider type strings of the fixed mapping table in
`verify_webhook` (pay-stripe/src/checkout.rs). -/
def eventTypeTable : List String :=
  ["checkout.session.completed", "payment_intent.succeeded",
   "payment_intent.payment_failed", "customer.subscription.created",
   "customer.subscription.deleted", "invoice.paid", "charge.refunded"]

/-- The `match event.event_type.as_str()` mapping of `verify_webhook`:
exact string match against the fixed table, anything else becomes
`Unknown` carrying the original string.  (A Rust match on string literals
is a sequence of equality tests.) -/
def normalizeEventType (s : String) : WebhookEventType :=
  if s = "checkout.session.completed" then .CheckoutCompleted
  else if s = "payment_intent.succeeded" then .PaymentSucceeded
  else if s = "payment_intent.payment_failed" then .PaymentFailed
  else if s = "customer.subscription.created" then .SubscriptionCreated
  else if s = "customer.subscription.deleted" then .SubscriptionCancelled
  else if s = "invoice.paid" then .SubscriptionRenewed
  else if s = "charge.refunded" then .RefundIssued
  else .Unknown s

/-- The normalized event built at the end of `verify_webhook`
(pay-stripe/src/checkout.rs, after the event body parsed): field
extraction by key path, `currency` hardcoded to `None` ("Could parse from
event if needed"), raw payload object retained. -/
def normalize_event (event : StripeWebhookEvent) : WebhookEvent :=
  { event_id := event.id
    event_type := normalizeEventType event.event_type
    provider := "stripe"
    session_id := (jsonGet event.data_object "id").bind Json.as_str
    payment_intent_id := (jsonGet event.data_object "payment_intent").bind Json.as_str
    customer_email :=
      ((jsonGet event.data_object "customer_details").bind
        (fun cd => cd.get "email")).bind Json.as_str
    amount_paid := (jsonGet event.data_object "amount_total").bind Json.as_i64
    currency := none
    raw_data := some (Json.obj event.data_object)
    timestamp := event.created }

/-- Two's-complement wrap of an integer into the `i64` range
`[-2^63, 2^63)`: the value a Rust release-profile arithmetic overflow
produces. -/
def wrapI64 (x : Int) : Int :=
  (x + 2 ^ 63) % 2 ^ 64 - 2 ^ 63

/-- The `i64` subtraction `now - timestamp` of `verify_webhook`
(pay-stripe/src/checkout.rs): wraps on overflow in release builds (debug
builds panic at the same inputs). -/
def i64_sub (a b : Int) : Int :=
  wrapI64 (a - b)

/-- Release-profile `i64::abs` (`.abs()` in `verify_webhook`): the
absolute value, except that `abs(i64::MIN)` wraps back to `i64::MIN`
(debug builds panic there). -/
def i64_abs (a : Int) : Int :=
  wrapI64 |a|

/-- `StripeCheckoutStrategy::verify_webhook` in pay-stripe/src/checkout.rs.
External collaborators are parameters: `hmacHex` is `compute_hmac_sha256`
(the hmac/sha2/hex crates: hex-encoded HMAC-SHA256 of a message under a
secret key), `parseEvent` is the serde deserialization of the payload into
`StripeWebhookEvent` (returning the serde error message on failure), `now`
is `Utc::now().timestamp()`, and `payload` is the body's UTF-8 text
(`String::from_utf8_lossy`).  The tolerance check
`(now - timestamp).abs() > tolerance` is `i64` arithmetic on a
header-controlled timestamp; the embedding fixes release-profile
(wrapping) semantics via `i64_sub`/`i64_abs` — debug builds panic at
exactly the inputs where those wrap. -/
def verify_webhook (hmacHex : String → String → String)
    (parseEvent : String → Except String StripeWebhookEvent)
    (webhook_secret : String) (now : Int)
    (payload : String) (signature : String) :
    Except PaymentError WebhookEvent :=
  match parse_signature_header signature with
  | .error e => .error e
  | .ok sig_parts =>
    if i64_abs (i64_sub now sig_parts.timestamp) > 300 then
      .error (PaymentError.WebhookVerificationFailed "Timestamp outside tolerance")
    else
      let signed_payload := toString sig_parts.timestamp ++ "." ++ payload
      let expected_sig := hmacHex webhook_secret signed_payload
      if sig_parts.signatures.any (fun sig => constant_time_compare sig expected_sig) then
        match parseEvent payload with
        | .error e =>
          .error (PaymentError.WebhookParseError ("Failed to parse webhook: " ++ e))
        | .ok event => .ok (normalize_event event)
      else
        .error (PaymentError.WebhookVerificationFailed "Signature mismatch")

-- =========================================================================
-- Webhook dispatch (pay-stripe/src/webhook.rs)
-- =========================================================================

/-- Parsed checkout.session.completed event data, from
pay-stripe/src/webhook.rs `struct CheckoutCompletedData`. -/
structure CheckoutCompletedData where
  session_id : String
  payment_intent_id : Option String
  subscription_id : Option String
  customer_id : Option String
  customer_email : Option String
  amount_total : Int
  currency : Currency
  payment_status : String
  metadata : List (String × String)

/-- The currency-code match of `CheckoutCompletedData::from_event`:
lowercased code mapped to the enumerated currency, defaulting to USD. -/
def currencyFromCode (code : String) : Currency :=
  if code.toLower = "usd" then .USD
  else if code.toLower = "eur" then .EUR
  else if code.toLower = "gbp" then .GBP
  else if code.toLower = "jpy" then .JPY
  else if code.toLower = "cad" then .CAD
  else if code.toLower = "aud" then .AUD
  else if code.toLower = "chf" then .CHF
  else if code.toLower = "mxn" then .MXN
  else .USD

/-- `CheckoutCompletedData::from_event` in pay-stripe/src/webhook.rs. -/
def CheckoutCompletedData.from_event (event : WebhookEvent) :
    Except PaymentError CheckoutCompletedData :=
  match event.raw_data with
  | none => .error (PaymentError.WebhookParseError "Missing raw data")
  | some raw =>
    match raw.as_object with
    | none => .error (PaymentError.WebhookParseError "Raw data is not an object")
    | some obj =>
      match (jsonGet obj "id").bind Json.as_str with
      | none => .error (PaymentError.WebhookParseError "Missing session id")
      | some session_id =>
        .ok { session_id := session_id
              payment_intent_id := (jsonGet obj "payment_intent").bind Json.as_str
              subscription_id := (jsonGet obj "subscription").bind Json.as_str
              customer_id := (jsonGet obj "customer").bind Json.as_str
              customer_email :=
                ((jsonGet obj "customer_details").bind
                  (fun cd => cd.get "email")).bind Json.as_str
              amount_total :=
                ((jsonGet obj "amount_total").bind Json.as_i64).getD 0
              currency :=
                currencyFromCode
                  (((jsonGet obj "currency").bind Json.as_str).getD "usd")
              payment_status :=
                ((jsonGet obj "payment_status").bind Json.as_str).getD "unknown"
              metadata :=
                (((jsonGet obj "metadata").bind Json.as_object).getD []).filterMap
                  (fun p => (p.2.as_str).map (fun s => (p.1, s))) }

/-- A webhook handler, from pay-stripe/src/webhook.rs
`trait WebhookHandler`: one hook per normalized event kind plus a
catch-all for unknown events. -/
structure WebhookHandler where
  on_checkout_completed : CheckoutCompletedData → Except PaymentError Unit
  on_payment_succeeded : WebhookEvent → Except PaymentError Unit
  on_payment_failed : WebhookEvent → Except PaymentError Unit
  on_subscription_created : WebhookEvent → Except PaymentError Unit
  on_subscription_cancelled : WebhookEvent → Except PaymentError Unit
  on_subscription_renewed : WebhookEvent → Except PaymentError Unit
  on_refund_issued : WebhookEvent → Except PaymentError Unit
  on_unknown_event : WebhookEvent → Except PaymentError Unit

/-- `LoggingWebhookHandler` in pay-stripe/src/webhook.rs: relies on every
default trait method, each of which only logs and returns `Ok(())`. -/
def LoggingWebhookHandler : WebhookHandler :=
  { on_checkout_completed := fun _ => .ok ()
    on_payment_succeeded := fun _ => .ok ()
    on_payment_failed := fun _ => .ok ()
    on_subscription_created := fun _ => .ok ()
    on_subscription_cancelled := fun _ => .ok ()
    on_subscription_renewed := fun _ => .ok ()
    on_refund_issued := fun _ => .ok ()
    on_unknown_event := fun _ => .ok () }

/-- `dispatch_webhook_event` in pay-stripe/src/webhook.rs: route by event
kind to exactly one hook; the checkout-completed branch first re-derives
`CheckoutCompletedData` from the raw payload and propagates its failure. -/
def dispatch_webhook_event (handler : WebhookHandler) (event : WebhookEvent) :
    Except PaymentError Unit :=
  match event.event_type with
  | .CheckoutCompleted =>
    match CheckoutCompletedData.from_event event with
    | .error e => .error e
    | .ok data => handler.on_checkout_completed data
  | .PaymentSucceeded => handler.on_payment_succeeded event
  | .PaymentFailed => handler.on_payment_failed event
  | .SubscriptionCreated => handler.on_subscription_created event
  | .SubscriptionCancelled => handler.on_subscription_cancelled event
  | .SubscriptionRenewed => handler.on_subscription_renewed event
  | .RefundIssued => handler.on_refund_issued event
  | .Unknown _ => handler.on_unknown_event event

-- =========================================================================
-- Checkout creation (pay-stripe/src/checkout.rs)
-- =========================================================================

/-- Stripe recurring price component, from pay-stripe/src/checkout.rs
`struct StripeRecurring`. -/
structure StripeRecurring where
  interval : String
  interval_count : Int
  deriving DecidableEq, Repr

/-- Stripe product data, from pay-stripe/src/checkout.rs
`struct StripeProductData`. -/
structure StripeProductData where
  name : String
  description : Option String
  images : Option (List String)
  deriving DecidableEq, Repr

/-- Stripe price data, from pay-stripe/src/checkout.rs
`struct StripePriceData`. -/
structure StripePriceData where
  currency : String
  unit_amount : Int
  product_data : StripeProductData
  recurring : Option StripeRecurring
  deriving DecidableEq, Repr

/-- Stripe line item, from pay-stripe/src/checkout.rs
`struct StripeLineItem`. -/
structure StripeLineItem where
  price_data : StripePriceData
  quantity : Int
  deriving DecidableEq, Repr

/-- `StripeCheckoutStrategy::build_line_items` in
pay-stripe/src/checkout.rs. -/
def build_line_items (order : Order) : List StripeLineItem :=
  order.line_items.map (fun item =>
    let recurring : Option StripeRecurring :=
      match item.billing_interval with
      | .OneTime => none
      | .Weekly => some { interval := "week", interval_count := 1 }
      | .Monthly => some { interval := "month", interval_count := 1 }
      | .Yearly => some { interval := "year", interval_count := 1 }
    { price_data :=
        { currency := item.unit_price.currency.as_str
          unit_amount := item.unit_price.amount
          product_data :=
            { name := item.name
              description := item.description
              images := item.image_url.map (fun url => [url]) }
          recurring := recurring }
      quantity := (item.quantity : Int) })

/-- `StripeCheckoutStrategy::stripe_mode` in pay-stripe/src/checkout.rs. -/
def stripe_mode : CheckoutMode → String
  | .Payment => "payment"
  | .Subscription => "subscription"
  | .Setup => "setup"

/-- The form parameters built for one line item at index `i` in
`create_checkout` (pay-stripe/src/checkout.rs). -/
def line_item_params (i : Nat) (item : StripeLineItem) : List (String × String) :=
  let pre := "line_items[" ++ toString i ++ "]"
  [(pre ++ "[price_data][currency]", item.price_data.currency),
   (pre ++ "[price_data][unit_amount]", toString item.price_data.unit_amount),
   (pre ++ "[price_data][product_data][name]", item.price_data.product_data.name)]
  ++ (match item.price_data.product_data.description with
      | some desc => [(pre ++ "[price_data][product_data][description]", desc)]
      | none => [])
  ++ (match item.price_data.product_data.images with
      | some images =>
        (images.enum).map (fun p =>
          (pre ++ "[price_data][product_data][images][" ++ toString p.1 ++ "]", p.2))
      | none => [])
  ++ (match item.price_data.recurring with
      | some recurring =>
        [(pre ++ "[price_data][recurring][interval]", recurring.interval),
         (pre ++ "[price_data][recurring][interval_count]",
          toString recurring.interval_count)]
      | none => [])
  ++ [(pre ++ "[quantity]", toString item.quantity)]

/-- The complete form-parameter list built by `create_checkout`
(pay-stripe/src/checkout.rs): mode and URLs, then per-line-item
parameters, then optional customer email, then order metadata. -/
def checkout_form_params (order : Order) (success_url cancel_url : String) :
    List (String × String) :=
  [("mode", stripe_mode order.mode),
   ("success_url", success_url),
   ("cancel_url", cancel_url)]
  ++ ((build_line_items order).enum.flatMap (fun p => line_item_params p.1 p.2))
  ++ (match order.customer_email with
      | some email => [("customer_email", email)]
      | none => [])
  ++ [("metadata[order_id]", order.id)]
  ++ order.metadata.map (fun p => ("metadata[" ++ p.1 ++ "]", p.2))

/-- Stripe checkout session response, from pay-stripe/src/checkout.rs
`struct StripeCheckoutSessionResponse`. -/
structure StripeCheckoutSessionResponse where
  id : String
  url : String
  payment_intent : Option String
  customer : Option String
  expires_at : Option Int
  deriving DecidableEq, Repr

/-- `StripeCheckoutStrategy::create_checkout` in
pay-stripe/src/checkout.rs.  The outbound HTTP POST to the Stripe API and
the deserialization/classification of its response (reqwest and serde,
external collaborators) are abstracted into `send`, which receives the
form parameters and the idempotency key and yields either a classified
`PaymentError` or the parsed session response; everything before and
after the call is the repository's code. -/
def create_checkout
    (send : List (String × String) → String →
      Except PaymentError StripeCheckoutSessionResponse)
    (now : Int) (order : Order) (success_url cancel_url : String) :
    Except PaymentError CheckoutSession :=
  if order.is_empty then
    .error (PaymentError.InvalidRequest "Order has no items")
  else
    let form_params := checkout_form_params order success_url cancel_url
    let idempotency_key := order.idempotency_key.getD order.id
    match send form_params idempotency_key with
    | .error e => .error e
    | .ok resp =>
      .ok { session_id := resp.id
            order_id := order.id
            provider := "stripe"
            checkout_url := resp.url
            status := CheckoutStatus.Open
            expires_at := resp.expires_at
            payment_intent_id := resp.payment_intent
            customer_id := resp.customer
            created_at := now }

-- =========================================================================
-- Facade metadata assembly (pay-api/src/handlers.rs)
-- =========================================================================

/-- Insertion into a `std::collections::HashMap<String, String>`
(modelled as an association list): replace the binding for the key if
present, otherwise add one. -/
def mapInsert (m : List (String × String)) (k v : String) :
    List (String × String) :=
  match m with
  | [] => [(k, v)]
  | p :: rest => if p.1 == k then (k, v) :: rest else p :: mapInsert rest k v

/-- Lookup in the association-list model of `HashMap<String, String>`. -/
def mapGet (m : List (String × String)) (k : String) : Option String :=
  (m.find? (fun p => p.1 == k)).map (fun p => p.2)

/-- The metadata pipeline of `create_checkout_internal`
(pay-api/src/handlers.rs): the order starts with empty metadata
(`Order::new`), the facade inserts the derived `site_id` entry (when a
site id is in scope) and the derived `statement_descriptor_suffix` entry
(when `statement_descriptor_for_site` yields one), and only then merges
the caller-supplied request metadata entry by entry. -/
def order_metadata_after_build (site_id descriptor : Option String)
    (request_metadata : List (String × String)) : List (String × String) :=
  let m : List (String × String) := []
  let m := match site_id with
    | some sid => mapInsert m "site_id" sid
    | none => m
  let m := match descriptor with
    | some d => mapInsert m "statement_descriptor_suffix" d
    | none => m
  request_metadata.foldl (fun acc p => mapInsert acc p.1 p.2) m

-- =========================================================================
-- Sequences of order-building calls
-- =========================================================================

/-- One order-building call: either `Order::add_item` with a line item or
`Order::add_product` with a product and a quantity. -/
inductive CartAction where
  | item (li : LineItem)
  | product (p : Product) (quantity : Nat)
  deriving DecidableEq, Repr

/-- Apply one order-building call. -/
def applyAction (o : Order) : CartAction → Order
  | .item li => o.add_item li
  | .product p quantity => o.add_product p quantity

/-- The billing interval the call contributes. -/
def actionInterval : CartAction → BillingInterval
  | .item li => li.billing_interval
  | .product p _ => p.billing_interval

end LightningCart

-- =========================================================================
-- Theorems
-- =========================================================================

namespace LightningCart

theorem wrapI64_eq_self (x : Int) (h1 : -(2 ^ 63) ≤ x) (h2 : x < 2 ^ 63) :
    wrapI64 x = x := by
  rw [wrapI64, Int.emod_eq_of_lt (by omega) (by omega)]
  omega

theorem i64_abs_sub_eq (a b : Int) (h : (a - b).natAbs ≤ 2 ^ 63 - 1) :
    i64_abs (i64_sub a b) = ((a - b).natAbs : Int) := by
  rw [i64_sub, wrapI64_eq_self _ (by omega) (by omega), i64_abs,
    Int.abs_eq_natAbs, wrapI64_eq_self _ (by omega) (by omega)]

theorem lor_eq_zero_iff (a b : Nat) : a ||| b = 0 ↔ a = 0 ∧ b = 0 := by
  constructor
  · intro h
    refine ⟨Nat.eq_of_testBit_eq fun i => ?_, Nat.eq_of_testBit_eq fun i => ?_⟩ <;>
      · have := congrArg (fun n => Nat.testBit n i) h
        simp only [Nat.testBit_or, Nat.zero_testBit, Bool.or_eq_false_iff] at this
        simp [this]
  · rintro ⟨h1, h2⟩
    simp [h1, h2]

theorem xorAccum_acc_eq_zero (l : List (Nat × Nat)) (acc : Nat) :
    l.foldl (fun acc p => acc ||| (p.1 ^^^ p.2)) acc = 0 ↔
      acc = 0 ∧ ∀ p ∈ l, p.1 = p.2 := by
  induction l generalizing acc with
  | nil => simp
  | cons p l ih =>
    simp only [List.foldl_cons, ih, lor_eq_zero_iff, Nat.xor_eq_zero, List.mem_cons]
    constructor
    · rintro ⟨⟨h1, h2⟩, h3⟩
      exact ⟨h1, fun q hq => hq.elim (fun hq => hq ▸ h2) (h3 q)⟩
    · rintro ⟨h1, h2⟩
      exact ⟨⟨h1, h2 p (Or.inl rfl)⟩, fun q hq => h2 q (Or.inr hq)⟩

theorem xorAccum_eq_zero (l : List (Nat × Nat)) :
    xorAccum l = 0 ↔ ∀ p ∈ l, p.1 = p.2 := by
  rw [xorAccum, xorAccum_acc_eq_zero]
  simp

theorem eq_iff_length_and_zip (xs ys : List Nat) :
    xs = ys ↔ xs.length = ys.length ∧ ∀ p ∈ xs.zip ys, p.1 = p.2 := by
  induction xs generalizing ys with
  | nil => cases ys <;> simp
  | cons x xs ih =>
    cases ys with
    | nil => simp
    | cons y ys =>
      simp only [List.zip_cons_cons, List.mem_cons, List.length_cons,
        List.cons.injEq, Nat.add_right_cancel_iff, ih ys]
      constructor
      · rintro ⟨h1, h2, h3⟩
        exact ⟨h2, fun q hq => hq.elim (fun hq => by simp [hq, h1]) (h3 q)⟩
      · rintro ⟨h1, h2⟩
        exact ⟨h2 (x, y) (Or.inl rfl), h1, fun q hq => h2 q (Or.inr hq)⟩

theorem constant_time_compare_iff (a b : String) :
    constant_time_compare a b = true ↔ strBytes a = strBytes b := by
  rw [constant_time_compare]
  by_cases h : (strBytes a).length = (strBytes b).length
  · rw [if_neg (by simpa using h)]
    rw [beq_iff_eq, xorAccum_eq_zero, eq_iff_length_and_zip]
    simp [h]
  · rw [if_pos (by simpa using h)]
    rw [eq_iff_length_and_zip]
    simp [h]


/-- C1: for every payload, secret, and well-formed signature header whose
timestamp is within the 300-second tolerance, `verify_webhook` accepts the
signature if and only if at least one of the parsed v1 signature strings
is byte-for-byte equal to the hex-encoded HMAC-SHA256 of
`"<timestamp>.<body>"` under the webhook secret (OR over all v1 entries),
where `constant_time_compare` returns true exactly when the two strings
are byte-for-byte equal; if no entry matches the call fails with
`WebhookVerificationFailed("Signature mismatch")`. -/
theorem verify_webhook_signature_acceptance :
    (∀ a b, constant_time_compare a b = true ↔ strBytes a = strBytes b) ∧
    ∀ (hmacHex : String → String → String)
      (parseEvent : String → Except String StripeWebhookEvent)
      (secret : String) (now : Int) (payload signature : String)
      (sh : SignatureHeader),
      parse_signature_header signature = .ok sh →
      (now - sh.timestamp).natAbs ≤ 300 →
      ((∃ s ∈ sh.signatures,
          strBytes s =
            strBytes (hmacHex secret (toString sh.timestamp ++ "." ++ payload))) ↔
        verify_webhook hmacHex parseEvent secret now payload signature ≠
          Except.error (PaymentError.WebhookVerificationFailed "Signature mismatch")) := by
  refine ⟨constant_time_compare_iff, ?_⟩
  intro hmacHex parseEvent secret now payload signature sh hparse htol
  rw [verify_webhook, hparse]
  simp only
  rw [if_neg (by rw [i64_abs_sub_eq now sh.timestamp (by omega)]; omega)]
  cases hany : sh.signatures.any
      (fun sig => constant_time_compare sig
        (hmacHex secret (toString sh.timestamp ++ "." ++ payload))) with
  | true =>
    rw [if_pos rfl]
    rw [List.any_eq_true] at hany
    obtain ⟨s, hs, hcmp⟩ := hany
    rw [constant_time_compare_iff] at hcmp
    constructor
    · intro _
      cases hev : parseEvent payload with
      | error e => simp
      | ok ev => simp
    · intro _
      exact ⟨s, hs, hcmp⟩
  | false =>
    rw [if_neg (by simp)]
    rw [List.any_eq_false] at hany
    constructor
    · rintro ⟨s, hs, hcmp⟩
      rw [← constant_time_compare_iff] at hcmp
      exact absurd hcmp (by simpa using hany s hs)
    · intro h
      exact absurd rfl h

/-- Witness for C1 at a concrete header, secret and payload. -/
theorem verify_webhook_signature_acceptance_witness :
    parse_signature_header "t=0,v1=aa" = .ok ⟨0, ["aa"]⟩ ∧
    ((0 : Int) - 0).natAbs ≤ 300 ∧
    ((∃ s ∈ ["aa"], strBytes s =
        strBytes ((fun (_ _ : String) => "aa") "sec" (toString (0 : Int) ++ "." ++ "body"))) ↔
      verify_webhook (fun _ _ => "aa")
          (fun _ => Except.error "bad json") "sec" 0 "body" "t=0,v1=aa" ≠
        Except.error (PaymentError.WebhookVerificationFailed "Signature mismatch")) :=
  ⟨by decide, by decide,
   verify_webhook_signature_acceptance.2 (fun _ _ => "aa")
     (fun _ => Except.error "bad json") "sec" 0 "body" "t=0,v1=aa"
     ⟨0, ["aa"]⟩ (by decide) (by decide)⟩


theorem foldl_timestamp_none (parts : List String) :
    ∀ acc : Option Int × List String, acc.1 = none →
    (∀ part ∈ parts, isParseableT part = false) →
    (parts.foldl parseHeaderStep acc).1 = none := by
  induction parts with
  | nil => intro acc h _; simpa using h
  | cons part rest ih =>
    intro acc hacc hall
    rw [List.foldl_cons]
    refine ih _ ?_ (fun p hp => hall p (List.mem_cons_of_mem _ hp))
    have hpart := hall part (List.mem_cons_self _ _)
    rw [isParseableT] at hpart
    rw [parseHeaderStep]
    split
    next k v heq =>
      rw [heq] at hpart
      simp only at hpart
      by_cases hk : k = "t"
      · rw [if_pos hk]
        subst hk
        simp only [beq_self_eq_true, Bool.true_and] at hpart
        simpa using hpart
      · rw [if_neg hk]
        by_cases hk2 : k = "v1"
        · rw [if_pos hk2]; exact hacc
        · rw [if_neg hk2]; exact hacc
    next heq _ => exact hacc

theorem foldl_sigs_const (parts : List String) :
    ∀ acc : Option Int × List String,
    (∀ part ∈ parts, isV1Segment part = false) →
    (parts.foldl parseHeaderStep acc).2 = acc.2 := by
  induction parts with
  | nil => intro acc _; rfl
  | cons part rest ih =>
    intro acc hall
    rw [List.foldl_cons]
    rw [ih _ (fun p hp => hall p (List.mem_cons_of_mem _ hp))]
    have hpart := hall part (List.mem_cons_self _ _)
    rw [isV1Segment] at hpart
    rw [parseHeaderStep]
    split
    next k v heq =>
      rw [heq] at hpart
      simp only at hpart
      by_cases hk : k = "t"
      · rw [if_pos hk]
      · rw [if_neg hk]
        by_cases hk2 : k = "v1"
        · rw [hk2] at hpart
          simp at hpart
        · rw [if_neg hk2]
    next heq _ => rfl

theorem parseHeaderStep_unknown (acc : Option Int × List String) (part : String)
    (h : isUnknownSegment part = true) : parseHeaderStep acc part = acc := by
  rw [isUnknownSegment] at h
  rw [parseHeaderStep]
  split
  next k v heq =>
    rw [heq] at h
    simp only [Bool.and_eq_true, Bool.not_eq_true'] at h
    rw [if_neg (ne_of_beq_false h.1), if_neg (ne_of_beq_false h.2)]
  next heq _ => rfl


theorem parseSignatureParts_no_t (parts : List String)
    (h : ∀ part ∈ parts, isParseableT part = false) :
    parseSignatureParts parts =
      .error (PaymentError.WebhookVerificationFailed
        "Missing timestamp in signature") := by
  simp only [parseSignatureParts]
  rw [foldl_timestamp_none parts (none, []) rfl h]

theorem parseSignatureParts_no_v1 (parts : List String)
    (h : ∀ part ∈ parts, isV1Segment part = false) :
    ∃ msg, parseSignatureParts parts =
      .error (PaymentError.WebhookVerificationFailed msg) := by
  simp only [parseSignatureParts]
  rw [foldl_sigs_const parts (none, []) h]
  cases hfold : (parts.foldl parseHeaderStep (none, [])).1 with
  | none => exact ⟨"Missing timestamp in signature", rfl⟩
  | some ts => exact ⟨"No v1 signature found", by simp⟩

/-- C2 (amended): `verify_webhook` returns `WebhookVerificationFailed`
when the header has no parseable `t=<integer>` segment, or has no `v1`
entries, or the timestamp differs from the server clock by more than 300
seconds while the `i64` difference `now - t` does not overflow
(`|now - t| ≤ 2^63 - 1`) — whatever the signature; and header segments
with unknown keys are ignored, leaving the parse result unchanged.  The
overflow restriction is forced by the source's `i64` arithmetic: at
`t = now - 2^63` the wrapped difference is `i64::MIN`, whose release-mode
`abs()` is negative, so the tolerance check passes (see the
counterexample). -/
theorem verify_webhook_failure_modes :
    (∀ (hmacHex : String → String → String)
       (parseEvent : String → Except String StripeWebhookEvent)
       (secret : String) (now : Int) (payload header : String),
      (∀ part ∈ headerParts header, isParseableT part = false) →
      verify_webhook hmacHex parseEvent secret now payload header =
        Except.error (PaymentError.WebhookVerificationFailed
          "Missing timestamp in signature")) ∧
    (∀ (hmacHex : String → String → String)
       (parseEvent : String → Except String StripeWebhookEvent)
       (secret : String) (now : Int) (payload header : String),
      (∀ part ∈ headerParts header, isV1Segment part = false) →
      ∃ msg, verify_webhook hmacHex parseEvent secret now payload header =
        Except.error (PaymentError.WebhookVerificationFailed msg)) ∧
    (∀ (hmacHex : String → String → String)
       (parseEvent : String → Except String StripeWebhookEvent)
       (secret : String) (now : Int) (payload header : String)
       (sh : SignatureHeader),
      parse_signature_header header = .ok sh →
      (now - sh.timestamp).natAbs > 300 →
      (now - sh.timestamp).natAbs ≤ 2 ^ 63 - 1 →
      verify_webhook hmacHex parseEvent secret now payload header =
        Except.error (PaymentError.WebhookVerificationFailed
          "Timestamp outside tolerance")) ∧
    (∀ (xs ys : List String) (part : String), isUnknownSegment part = true →
      parseSignatureParts (xs ++ part :: ys) = parseSignatureParts (xs ++ ys)) := by
  refine ⟨?_, ?_, ?_, ?_⟩
  · intro hmacHex parseEvent secret now payload header h
    have hp : parse_signature_header header =
        .error (PaymentError.WebhookVerificationFailed
          "Missing timestamp in signature") := by
      rw [parse_signature_header]
      exact parseSignatureParts_no_t _ h
    rw [verify_webhook, hp]
  · intro hmacHex parseEvent secret now payload header h
    obtain ⟨msg, hmsg⟩ := parseSignatureParts_no_v1 (headerParts header) h
    have hp : parse_signature_header header =
        .error (PaymentError.WebhookVerificationFailed msg) := by
      rw [parse_signature_header]; exact hmsg
    exact ⟨msg, by rw [verify_webhook, hp]⟩
  · intro hmacHex parseEvent secret now payload header sh hparse htol hbound
    rw [verify_webhook, hparse]
    simp only
    rw [if_pos (by rw [i64_abs_sub_eq now sh.timestamp hbound]; omega)]
  · intro xs ys part h
    have hfold : (xs ++ part :: ys).foldl parseHeaderStep (none, []) =
        (xs ++ ys).foldl parseHeaderStep (none, []) := by
      rw [List.foldl_append, List.foldl_append, List.foldl_cons,
        parseHeaderStep_unknown _ _ h]
    rw [parseSignatureParts, parseSignatureParts, hfold]


/-- Witness for C2 at concrete headers: a header with no parseable
timestamp, a header with no v1 entry, a stale-timestamp header with an
otherwise-correct signature, and an unknown-key segment. -/
theorem verify_webhook_failure_modes_witness :
    ((∀ part ∈ headerParts "v1=aa", isParseableT part = false) ∧
      verify_webhook (fun _ _ => "aa") (fun _ => Except.error "e")
          "sec" 0 "body" "v1=aa" =
        Except.error (PaymentError.WebhookVerificationFailed
          "Missing timestamp in signature")) ∧
    ((∀ part ∈ headerParts "t=5", isV1Segment part = false) ∧
      ∃ msg, verify_webhook (fun _ _ => "aa") (fun _ => Except.error "e")
          "sec" 0 "body" "t=5" =
        Except.error (PaymentError.WebhookVerificationFailed msg)) ∧
    (parse_signature_header "t=0,v1=aa" = .ok ⟨0, ["aa"]⟩ ∧
      ((301 : Int) - 0).natAbs > 300 ∧
      ((301 : Int) - 0).natAbs ≤ 2 ^ 63 - 1 ∧
      verify_webhook (fun _ _ => "aa") (fun _ => Except.error "e")
          "sec" 301 "body" "t=0,v1=aa" =
        Except.error (PaymentError.WebhookVerificationFailed
          "Timestamp outside tolerance")) ∧
    (isUnknownSegment "foo=bar" = true ∧
      parseSignatureParts (["t=0"] ++ "foo=bar" :: ["v1=aa"]) =
        parseSignatureParts (["t=0"] ++ ["v1=aa"])) :=
  ⟨⟨by decide,
    verify_webhook_failure_modes.1 (fun _ _ => "aa") (fun _ => Except.error "e")
      "sec" 0 "body" "v1=aa" (by decide)⟩,
   ⟨by decide,
    verify_webhook_failure_modes.2.1 (fun _ _ => "aa") (fun _ => Except.error "e")
      "sec" 0 "body" "t=5" (by decide)⟩,
   ⟨by decide, by decide, by decide,
    verify_webhook_failure_modes.2.2.1 (fun _ _ => "aa") (fun _ => Except.error "e")
      "sec" 301 "body" "t=0,v1=aa" ⟨0, ["aa"]⟩ (by decide) (by decide) (by decide)⟩,
   ⟨by decide,
    verify_webhook_failure_modes.2.2.2 ["t=0"] ["v1=aa"] "foo=bar" (by decide)⟩⟩

/-- Counterexample to C2 as stated: at `now = 0` the header timestamp
`t = -2^63` (a valid `i64`, off by `2^63` seconds, far beyond the
300-second tolerance) is accepted with a correct signature, because the
`i64` difference `now - t` wraps to `i64::MIN` and its release-mode
`abs()` is negative, so the `> 300` comparison is false; the call then
succeeds instead of returning `WebhookVerificationFailed` (a debug build
panics on the same input). -/
theorem verify_webhook_failure_modes_counterexample :
    parse_signature_header "t=-9223372036854775808,v1=aa" =
      .ok ⟨-(2 ^ 63), ["aa"]⟩ ∧
    ((0 : Int) - -(2 ^ 63)).natAbs > 300 ∧
    verify_webhook (fun _ _ => "aa")
        (fun _ => Except.ok ⟨"evt_3", "payment_intent.succeeded", 7, []⟩)
        "sec" 0 "body" "t=-9223372036854775808,v1=aa" =
      .ok (normalize_event ⟨"evt_3", "payment_intent.succeeded", 7, []⟩) :=
  ⟨by decide, by decide, rfl⟩


/-- C3: a provider type string outside the fixed mapping table
normalizes to `WebhookEventType.Unknown` carrying the original string
(never an error), every successfully verified event carries the
normalization of its provider type string, and `dispatch_webhook_event`
routes an `Unknown` event to the handler's catch-all `on_unknown_event`
hook, so dispatch with the default handler succeeds. -/
theorem unknown_event_type_dispatch :
    (∀ s, s ∉ eventTypeTable → normalizeEventType s = .Unknown s) ∧
    (∀ (hmacHex : String → String → String)
       (parseEvent : String → Except String StripeWebhookEvent)
       (secret : String) (now : Int) (payload signature : String)
       (ev : WebhookEvent) (se : StripeWebhookEvent),
      verify_webhook hmacHex parseEvent secret now payload signature = .ok ev →
      parseEvent payload = .ok se →
      ev.event_type = normalizeEventType se.event_type) ∧
    (∀ (handler : WebhookHandler) (event : WebhookEvent) (s : String),
      event.event_type = .Unknown s →
      dispatch_webhook_event handler event = handler.on_unknown_event event) ∧
    (∀ (event : WebhookEvent) (s : String),
      event.event_type = .Unknown s →
      dispatch_webhook_event LoggingWebhookHandler event = .ok ()) := by
  refine ⟨?_, ?_, ?_, ?_⟩
  · intro s hs
    simp only [eventTypeTable, List.mem_cons, List.not_mem_nil, or_false,
      not_or] at hs
    obtain ⟨h1, h2, h3, h4, h5, h6, h7⟩ := hs
    rw [normalizeEventType, if_neg h1, if_neg h2, if_neg h3, if_neg h4,
      if_neg h5, if_neg h6, if_neg h7]
  · intro hmacHex parseEvent secret now payload signature ev se hok hpe
    rw [verify_webhook] at hok
    cases hp : parse_signature_header signature with
    | error e => rw [hp] at hok; cases hok
    | ok sh =>
      rw [hp] at hok
      simp only at hok
      by_cases htol : i64_abs (i64_sub now sh.timestamp) > 300
      · rw [if_pos htol] at hok; cases hok
      · rw [if_neg htol] at hok
        cases hany : sh.signatures.any (fun sig => constant_time_compare sig
            (hmacHex secret (toString sh.timestamp ++ "." ++ payload))) with
        | true =>
          rw [hany, if_pos rfl, hpe] at hok
          cases hok
          rfl
        | false =>
          rw [hany, if_neg (by simp)] at hok
          cases hok
  · intro handler event s h
    rw [dispatch_webhook_event, h]
  · intro event s h
    rw [dispatch_webhook_event, h]
    rfl

/-- C10: every event accepted by `verify_webhook` has `currency = none`,
whatever the payload's `data.object` contains. -/
theorem verified_webhook_currency_none :
    ∀ (hmacHex : String → String → String)
      (parseEvent : String → Except String StripeWebhookEvent)
      (secret : String) (now : Int) (payload signature : String)
      (ev : WebhookEvent),
      verify_webhook hmacHex parseEvent secret now payload signature = .ok ev →
      ev.currency = none := by
  intro hmacHex parseEvent secret now payload signature ev hok
  rw [verify_webhook] at hok
  cases hp : parse_signature_header signature with
  | error e => rw [hp] at hok; cases hok
  | ok sh =>
    rw [hp] at hok
    simp only at hok
    by_cases htol : i64_abs (i64_sub now sh.timestamp) > 300
    · rw [if_pos htol] at hok; cases hok
    · rw [if_neg htol] at hok
      cases hany : sh.signatures.any (fun sig => constant_time_compare sig
          (hmacHex secret (toString sh.timestamp ++ "." ++ payload))) with
      | true =>
        rw [hany, if_pos rfl] at hok
        cases hpe : parseEvent payload with
        | error e => rw [hpe] at hok; cases hok
        | ok se =>
          rw [hpe] at hok
          cases hok
          rfl
      | false =>
        rw [hany, if_neg (by simp)] at hok
        cases hok


/-- Witness for C3 at the unmapped type string `weird.event`: the
verified event normalizes to `Unknown`, dispatch routes it to the
catch-all hook, and the default handler succeeds. -/
theorem unknown_event_type_dispatch_witness :
    ("weird.event" ∉ eventTypeTable ∧
      normalizeEventType "weird.event" = .Unknown "weird.event") ∧
    (verify_webhook (fun _ _ => "aa")
        (fun _ => Except.ok ⟨"evt_1", "weird.event", 5, []⟩)
        "sec" 0 "body" "t=0,v1=aa" =
        .ok (normalize_event ⟨"evt_1", "weird.event", 5, []⟩) ∧
      (normalize_event ⟨"evt_1", "weird.event", 5, []⟩).event_type =
        normalizeEventType "weird.event") ∧
    ((normalize_event ⟨"evt_1", "weird.event", 5, []⟩).event_type =
        .Unknown "weird.event" ∧
      dispatch_webhook_event LoggingWebhookHandler
          (normalize_event ⟨"evt_1", "weird.event", 5, []⟩) =
        LoggingWebhookHandler.on_unknown_event
          (normalize_event ⟨"evt_1", "weird.event", 5, []⟩)) ∧
    dispatch_webhook_event LoggingWebhookHandler
        (normalize_event ⟨"evt_1", "weird.event", 5, []⟩) = .ok () :=
  ⟨⟨by decide, unknown_event_type_dispatch.1 "weird.event" (by decide)⟩,
   ⟨rfl,
    unknown_event_type_dispatch.2.1 (fun _ _ => "aa")
      (fun _ => Except.ok ⟨"evt_1", "weird.event", 5, []⟩)
      "sec" 0 "body" "t=0,v1=aa"
      (normalize_event ⟨"evt_1", "weird.event", 5, []⟩)
      ⟨"evt_1", "weird.event", 5, []⟩ rfl rfl⟩,
   ⟨rfl,
    unknown_event_type_dispatch.2.2.1 LoggingWebhookHandler
      (normalize_event ⟨"evt_1", "weird.event", 5, []⟩) "weird.event" rfl⟩,
   unknown_event_type_dispatch.2.2.2
     (normalize_event ⟨"evt_1", "weird.event", 5, []⟩) "weird.event" rfl⟩

/-- Witness for C10: a verified webhook whose payload object carries a
`currency` field still yields an event with `currency = none`. -/
theorem verified_webhook_currency_none_witness :
    verify_webhook (fun _ _ => "aa")
        (fun _ => Except.ok ⟨"evt_2", "checkout.session.completed", 5,
          [("currency", Json.str "eur"), ("amount_total", Json.num 100)]⟩)
        "sec" 0 "body" "t=0,v1=aa" =
      .ok (normalize_event ⟨"evt_2", "checkout.session.completed", 5,
        [("currency", Json.str "eur"), ("amount_total", Json.num 100)]⟩) ∧
    (normalize_event ⟨"evt_2", "checkout.session.completed", 5,
      [("currency", Json.str "eur"), ("amount_total", Json.num 100)]⟩).currency =
      none :=
  ⟨rfl,
   verified_webhook_currency_none (fun _ _ => "aa")
     (fun _ => Except.ok ⟨"evt_2", "checkout.session.completed", 5,
       [("currency", Json.str "eur"), ("amount_total", Json.num 100)]⟩)
     "sec" 0 "body" "t=0,v1=aa"
     (normalize_event ⟨"evt_2", "checkout.session.completed", 5,
       [("currency", Json.str "eur"), ("amount_total", Json.num 100)]⟩) rfl⟩


/-- C5: adding a line item (or product) whose billing interval is not
one-time sets the order's mode to `Subscription`; once the mode is
`Subscription` no later sequence of `add_item`/`add_product` calls
reverts it; and starting from `Payment`, adding only one-time items
leaves the mode at `Payment`. -/
theorem order_mode_subscription_invariant :
    (∀ (o : Order) (li : LineItem), li.billing_interval ≠ .OneTime →
      (o.add_item li).mode = .Subscription) ∧
    (∀ (o : Order) (p : Product) (quantity : Nat),
      p.billing_interval ≠ .OneTime →
      (o.add_product p quantity).mode = .Subscription) ∧
    (∀ (o : Order) (acts : List CartAction), o.mode = .Subscription →
      (acts.foldl applyAction o).mode = .Subscription) ∧
    (∀ (o : Order) (acts : List CartAction), o.mode = .Payment →
      (∀ a ∈ acts, actionInterval a = .OneTime) →
      (acts.foldl applyAction o).mode = .Payment) := by
  refine ⟨?_, ?_, ?_, ?_⟩
  · intro o li h
    simp [Order.add_item, h]
  · intro o p quantity h
    simp [Order.add_product, Order.add_item, LineItem.from_product, h]
  · intro o acts
    induction acts generalizing o with
    | nil => intro h; simpa using h
    | cons a rest ih =>
      intro h
      rw [List.foldl_cons]
      refine ih _ ?_
      cases a with
      | item li =>
        simp only [applyAction, Order.add_item]
        split <;> simp [h]
      | product p q =>
        simp only [applyAction, Order.add_product, Order.add_item,
          LineItem.from_product]
        split <;> simp [h]
  · intro o acts
    induction acts generalizing o with
    | nil => intro h _; simpa using h
    | cons a rest ih =>
      intro h hall
      rw [List.foldl_cons]
      refine ih _ ?_ (fun x hx => hall x (List.mem_cons_of_mem _ hx))
      have ha := hall a (List.mem_cons_self _ _)
      cases a with
      | item li =>
        rw [actionInterval] at ha
        simp [applyAction, Order.add_item, ha, h]
      | product p q =>
        rw [actionInterval] at ha
        simp [applyAction, Order.add_product, Order.add_item,
          LineItem.from_product, ha, h]

/-- Witness for C5 at a concrete subscription item, subscription product
and action sequence. -/
theorem order_mode_subscription_invariant_witness :
    ((⟨"li1", "n", none, ⟨100, .USD⟩, 1, .Monthly, none⟩ :
        LineItem).billing_interval ≠ .OneTime ∧
      ((Order.new "oid" "key" 0 .USD).add_item
        ⟨"li1", "n", none, ⟨100, .USD⟩, 1, .Monthly, none⟩).mode =
        .Subscription) ∧
    (((Order.new "oid" "key" 0 .USD).add_item
        ⟨"li1", "n", none, ⟨100, .USD⟩, 1, .Monthly, none⟩).mode =
        CheckoutMode.Subscription ∧
      (([CartAction.item ⟨"li2", "n", none, ⟨50, .USD⟩, 1, .OneTime, none⟩]).foldl
        applyAction
        ((Order.new "oid" "key" 0 .USD).add_item
          ⟨"li1", "n", none, ⟨100, .USD⟩, 1, .Monthly, none⟩)).mode =
        .Subscription) ∧
    ((Order.new "oid" "key" 0 .USD).mode = CheckoutMode.Payment ∧
      (∀ a ∈ [CartAction.item ⟨"li2", "n", none, ⟨50, .USD⟩, 1, .OneTime, none⟩],
        actionInterval a = .OneTime) ∧
      (([CartAction.item ⟨"li2", "n", none, ⟨50, .USD⟩, 1, .OneTime, none⟩]).foldl
        applyAction (Order.new "oid" "key" 0 .USD)).mode = .Payment) :=
  ⟨⟨by decide,
    order_mode_subscription_invariant.1 (Order.new "oid" "key" 0 .USD)
      ⟨"li1", "n", none, ⟨100, .USD⟩, 1, .Monthly, none⟩ (by decide)⟩,
   ⟨by decide,
    order_mode_subscription_invariant.2.2.1
      ((Order.new "oid" "key" 0 .USD).add_item
        ⟨"li1", "n", none, ⟨100, .USD⟩, 1, .Monthly, none⟩)
      [CartAction.item ⟨"li2", "n", none, ⟨50, .USD⟩, 1, .OneTime, none⟩]
      (by decide)⟩,
   ⟨by decide, by decide,
    order_mode_subscription_invariant.2.2.2 (Order.new "oid" "key" 0 .USD)
      [CartAction.item ⟨"li2", "n", none, ⟨50, .USD⟩, 1, .OneTime, none⟩]
      (by decide) (by decide)⟩⟩

/-- C6: for every order with an empty line-item list,
`create_checkout` fails with `PaymentError.InvalidRequest`, for any
success and cancel URLs and any provider behavior. -/
theorem create_checkout_empty_order :
    ∀ (send : List (String × String) → String →
        Except PaymentError StripeCheckoutSessionResponse)
      (now : Int) (order : Order) (success_url cancel_url : String),
      order.line_items = [] →
      create_checkout send now order success_url cancel_url =
        .error (PaymentError.InvalidRequest "Order has no items") := by
  intro send now order success_url cancel_url h
  rw [create_checkout, if_pos]
  rw [Order.is_empty, h]
  rfl

/-- Witness for C6 at a concrete empty order. -/
theorem create_checkout_empty_order_witness :
    (Order.new "oid" "key" 0 .USD).line_items = [] ∧
    create_checkout (fun _ _ => Except.error (PaymentError.NetworkError "down"))
        0 (Order.new "oid" "key" 0 .USD) "https://s" "https://c" =
      .error (PaymentError.InvalidRequest "Order has no items") :=
  ⟨by decide,
   create_checkout_empty_order
     (fun _ _ => Except.error (PaymentError.NetworkError "down"))
     0 (Order.new "oid" "key" 0 .USD) "https://s" "https://c" (by decide)⟩

/-- C7: `get_or_default none` returns the configured default site when
its id resolves to a registered active site, else the first registered
site, else none (`head?` of an empty list); and for every site id that
does not resolve via `get`, `get_or_default (some id)` returns exactly
`get_or_default none`. -/
theorem get_or_default_fallback :
    (∀ (reg : SiteRegistry) (d : String) (s : Site),
      reg.default_site_id = some d → reg.get d = some s →
      reg.get_or_default none = some s) ∧
    (∀ reg : SiteRegistry,
      (∀ d, reg.default_site_id = some d → reg.get d = none) →
      reg.get_or_default none = reg.sites.head?) ∧
    (∀ (reg : SiteRegistry) (site_id : String),
      reg.get site_id = none →
      reg.get_or_default (some site_id) = reg.get_or_default none) := by
  refine ⟨?_, ?_, ?_⟩
  · intro reg d s hd hs
    simp [SiteRegistry.get_or_default, SiteRegistry.default_site, hd, hs,
      Option.orElse]
  · intro reg h
    cases hd : reg.default_site_id with
    | none =>
      simp [SiteRegistry.get_or_default, SiteRegistry.default_site, hd,
        Option.orElse]
    | some d =>
      simp [SiteRegistry.get_or_default, SiteRegistry.default_site, hd,
        h d hd, Option.orElse]
  · intro reg site_id h
    simp [SiteRegistry.get_or_default, h, Option.orElse]

/-- Witness for C7 at a concrete registry whose default id is
unregistered. -/
theorem get_or_default_fallback_witness :
    ((SiteRegistry.mk
        [⟨"a", "A", "a.io", "", "s", "c", none, true, []⟩]
        (some "a")).default_site_id = some "a" ∧
      (SiteRegistry.mk
        [⟨"a", "A", "a.io", "", "s", "c", none, true, []⟩]
        (some "a")).get "a" =
        some ⟨"a", "A", "a.io", "", "s", "c", none, true, []⟩ ∧
      (SiteRegistry.mk
        [⟨"a", "A", "a.io", "", "s", "c", none, true, []⟩]
        (some "a")).get_or_default none =
        some ⟨"a", "A", "a.io", "", "s", "c", none, true, []⟩) ∧
    ((∀ d, (SiteRegistry.mk
        [⟨"a", "A", "a.io", "", "s", "c", none, true, []⟩]
        (some "zz")).default_site_id = some d →
        (SiteRegistry.mk
          [⟨"a", "A", "a.io", "", "s", "c", none, true, []⟩]
          (some "zz")).get d = none) ∧
      (SiteRegistry.mk
        [⟨"a", "A", "a.io", "", "s", "c", none, true, []⟩]
        (some "zz")).get_or_default none =
        (SiteRegistry.mk
          [⟨"a", "A", "a.io", "", "s", "c", none, true, []⟩]
          (some "zz")).sites.head?) ∧
    ((SiteRegistry.mk
        [⟨"a", "A", "a.io", "", "s", "c", none, true, []⟩]
        (some "a")).get "unknown" = none ∧
      (SiteRegistry.mk
        [⟨"a", "A", "a.io", "", "s", "c", none, true, []⟩]
        (some "a")).get_or_default (some "unknown") =
        (SiteRegistry.mk
          [⟨"a", "A", "a.io", "", "s", "c", none, true, []⟩]
          (some "a")).get_or_default none) :=
  ⟨⟨by decide, by decide,
    get_or_default_fallback.1
      (SiteRegistry.mk [⟨"a", "A", "a.io", "", "s", "c", none, true, []⟩]
        (some "a")) "a" ⟨"a", "A", "a.io", "", "s", "c", none, true, []⟩
      (by decide) (by decide)⟩,
   ⟨by decide,
    get_or_default_fallback.2.1
      (SiteRegistry.mk [⟨"a", "A", "a.io", "", "s", "c", none, true, []⟩]
        (some "zz")) (by decide)⟩,
   ⟨by decide,
    get_or_default_fallback.2.2
      (SiteRegistry.mk [⟨"a", "A", "a.io", "", "s", "c", none, true, []⟩]
        (some "a")) "unknown" (by decide)⟩⟩

/-- C9: `SiteRegistry.get` returns a site only when the id matches and
the site is active, but the `default_site` fallback to the first
registered site does not filter on the active flag: when the configured
default id resolves to no active site and the first registered site is
inactive, `default_site` and `get_or_default` (for an absent or
unresolvable id) return that inactive site. -/
theorem inactive_first_site_fallback :
    (∀ (reg : SiteRegistry) (site_id : String) (s : Site),
      reg.get site_id = some s → s.id = site_id ∧ s.active = true) ∧
    (∀ (reg : SiteRegistry) (s0 : Site),
      (∀ d, reg.default_site_id = some d → reg.get d = none) →
      reg.sites.head? = some s0 → s0.active = false →
      reg.default_site = some s0 ∧
      reg.get_or_default none = some s0 ∧
      ∀ site_id, reg.get site_id = none →
        reg.get_or_default (some site_id) = some s0) := by
  constructor
  · intro reg site_id s h
    have hp := List.find?_some h
    simp only [Bool.and_eq_true, beq_iff_eq] at hp
    exact hp
  · intro reg s0 hdef hhead hinact
    have hds : reg.default_site = some s0 := by
      cases hd : reg.default_site_id with
      | none =>
        simp [SiteRegistry.default_site, hd, Option.orElse, hhead]
      | some d =>
        simp [SiteRegistry.default_site, hd, hdef d hd, Option.orElse, hhead]
    refine ⟨hds, by simp [SiteRegistry.get_or_default, hds], ?_⟩
    intro site_id h
    simp [SiteRegistry.get_or_default, h, Option.orElse, hds]

/-- Witness for C9: a registry whose default id resolves to nothing and
whose first registered site is inactive still hands out that inactive
site. -/
theorem inactive_first_site_fallback_witness :
    ((SiteRegistry.mk [⟨"a", "A", "a.io", "", "s", "c", none, true, []⟩]
        (some "a")).get "a" =
      some ⟨"a", "A", "a.io", "", "s", "c", none, true, []⟩ ∧
      ("a" : String) = "a" ∧
      (⟨"a", "A", "a.io", "", "s", "c", none, true, []⟩ : Site).active = true) ∧
    ((∀ d, (SiteRegistry.mk
        [⟨"b", "B", "b.io", "", "s", "c", none, false, []⟩]
        (some "b")).default_site_id = some d →
        (SiteRegistry.mk
          [⟨"b", "B", "b.io", "", "s", "c", none, false, []⟩]
          (some "b")).get d = none) ∧
      (SiteRegistry.mk [⟨"b", "B", "b.io", "", "s", "c", none, false, []⟩]
        (some "b")).sites.head? =
        some ⟨"b", "B", "b.io", "", "s", "c", none, false, []⟩ ∧
      (⟨"b", "B", "b.io", "", "s", "c", none, false, []⟩ : Site).active = false ∧
      (SiteRegistry.mk [⟨"b", "B", "b.io", "", "s", "c", none, false, []⟩]
        (some "b")).default_site =
        some ⟨"b", "B", "b.io", "", "s", "c", none, false, []⟩ ∧
      (SiteRegistry.mk [⟨"b", "B", "b.io", "", "s", "c", none, false, []⟩]
        (some "b")).get_or_default none =
        some ⟨"b", "B", "b.io", "", "s", "c", none, false, []⟩) :=
  ⟨⟨by decide,
    (inactive_first_site_fallback.1
      (SiteRegistry.mk [⟨"a", "A", "a.io", "", "s", "c", none, true, []⟩]
        (some "a")) "a" ⟨"a", "A", "a.io", "", "s", "c", none, true, []⟩
      (by decide)).1,
    (inactive_first_site_fallback.1
      (SiteRegistry.mk [⟨"a", "A", "a.io", "", "s", "c", none, true, []⟩]
        (some "a")) "a" ⟨"a", "A", "a.io", "", "s", "c", none, true, []⟩
      (by decide)).2⟩,
   ⟨by decide, by decide, by decide,
    (inactive_first_site_fallback.2
      (SiteRegistry.mk [⟨"b", "B", "b.io", "", "s", "c", none, false, []⟩]
        (some "b")) ⟨"b", "B", "b.io", "", "s", "c", none, false, []⟩
      (by decide) (by decide) (by decide)).1,
    (inactive_first_site_fallback.2
      (SiteRegistry.mk [⟨"b", "B", "b.io", "", "s", "c", none, false, []⟩]
        (some "b")) ⟨"b", "B", "b.io", "", "s", "c", none, false, []⟩
      (by decide) (by decide) (by decide)).2.1⟩⟩


theorem mapGet_insert_self (m : List (String × String)) (k v : String) :
    mapGet (mapInsert m k v) k = some v := by
  induction m with
  | nil => simp [mapInsert, mapGet]
  | cons p rest ih =>
    rw [mapInsert]
    split
    next hpk =>
      rw [mapGet, List.find?_cons_of_pos _ (by simp)]
      rfl
    next hpk =>
      rw [mapGet, List.find?_cons_of_neg _ (by simpa using hpk), ← mapGet]
      exact ih

theorem mapGet_insert_other (m : List (String × String)) (k k' v' : String)
    (h : k' ≠ k) : mapGet (mapInsert m k' v') k = mapGet m k := by
  induction m with
  | nil => simp [mapInsert, mapGet, h]
  | cons p rest ih =>
    rw [mapInsert]
    split
    next hpk =>
      rw [beq_iff_eq] at hpk
      rw [mapGet, List.find?_cons_of_neg _ (by simpa using h),
        mapGet, List.find?_cons_of_neg _ (by simp [hpk, h])]
    next hpk =>
      cases hp : (p.1 == k) with
      | true =>
        rw [mapGet, List.find?_cons_of_pos _ (by simpa using hp),
          mapGet, List.find?_cons_of_pos _ (by simpa using hp)]
      | false =>
        rw [mapGet, List.find?_cons_of_neg _ (by simpa using hp),
          mapGet, List.find?_cons_of_neg _ (by simpa using hp)]
        rw [← mapGet, ← mapGet]
        exact ih

theorem mapGet_merge_of_absent (reqMeta : List (String × String)) :
    ∀ (m : List (String × String)) (k : String), mapGet reqMeta k = none →
    mapGet (reqMeta.foldl (fun acc p => mapInsert acc p.1 p.2) m) k =
      mapGet m k := by
  induction reqMeta with
  | nil => intro m k _; rfl
  | cons q rest ih =>
    intro m k h
    cases hq : (q.1 == k) with
    | true =>
      rw [mapGet, List.find?_cons_of_pos _ (by simpa using hq)] at h
      cases h
    | false =>
      rw [mapGet, List.find?_cons_of_neg _ (by simpa using hq), ← mapGet] at h
      rw [List.foldl_cons, ih _ k h,
        mapGet_insert_other _ _ _ _ (by simpa using hq)]

theorem mapGet_merge_of_present (reqMeta : List (String × String)) :
    ∀ (m : List (String × String)) (k v : String),
    (reqMeta.map Prod.fst).Nodup → mapGet reqMeta k = some v →
    mapGet (reqMeta.foldl (fun acc p => mapInsert acc p.1 p.2) m) k =
      some v := by
  induction reqMeta with
  | nil => intro m k v _ h; cases h
  | cons q rest ih =>
    intro m k v hnd h
    rw [List.map_cons, List.nodup_cons] at hnd
    cases hq : (q.1 == k) with
    | true =>
      rw [beq_iff_eq] at hq
      rw [mapGet, List.find?_cons_of_pos _ (by simp [hq])] at h
      have hv : q.2 = v := by simpa using h
      have hrest : mapGet rest k = none := by
        rw [mapGet, List.find?_eq_none.2]
        · rfl
        intro x hx
        simp only [beq_iff_eq]
        intro hxk
        exact hnd.1 (hq ▸ hxk ▸ List.mem_map_of_mem Prod.fst hx)
      rw [List.foldl_cons, mapGet_merge_of_absent rest _ k hrest, hq, hv,
        mapGet_insert_self]
    | false =>
      rw [mapGet, List.find?_cons_of_neg _ (by simpa using hq), ← mapGet] at h
      rw [List.foldl_cons]
      exact ih _ k v hnd.2 h


/-- C8: the derived `site_id` and `statement_descriptor_suffix`
metadata entries are inserted before the caller-supplied request metadata
is merged, so a caller-supplied value for either key overwrites the
derived one, while keys the caller did not supply keep their derived
values. -/
theorem metadata_merge_precedence :
    ∀ (site_id descriptor : Option String)
      (request_metadata : List (String × String)),
      (request_metadata.map Prod.fst).Nodup →
      ((∀ k v, (k = "site_id" ∨ k = "statement_descriptor_suffix") →
        mapGet request_metadata k = some v →
        mapGet (order_metadata_after_build site_id descriptor request_metadata)
          k = some v) ∧
      (∀ sid, site_id = some sid →
        mapGet request_metadata "site_id" = none →
        mapGet (order_metadata_after_build site_id descriptor request_metadata)
          "site_id" = some sid) ∧
      (∀ d, descriptor = some d →
        mapGet request_metadata "statement_descriptor_suffix" = none →
        mapGet (order_metadata_after_build site_id descriptor request_metadata)
          "statement_descriptor_suffix" = some d)) := by
  intro site_id descriptor request_metadata hnd
  refine ⟨?_, ?_, ?_⟩
  · intro k v _ h
    exact mapGet_merge_of_present request_metadata _ k v hnd h
  · intro sid hsid h
    subst hsid
    simp only [order_metadata_after_build]
    rw [mapGet_merge_of_absent _ _ _ h]
    cases descriptor with
    | none => exact mapGet_insert_self _ _ _
    | some d =>
      rw [mapGet_insert_other _ _ _ _ (by decide)]
      exact mapGet_insert_self _ _ _
  · intro d hd h
    subst hd
    simp only [order_metadata_after_build]
    rw [mapGet_merge_of_absent _ _ _ h]
    exact mapGet_insert_self _ _ _

/-- Witness for C8 at concrete request metadata: a caller-supplied
`site_id` overwrites the derived entry, and an absent caller key keeps
the derived values. -/
theorem metadata_merge_precedence_witness :
    (([("site_id", "mine"), ("note", "hi")].map Prod.fst).Nodup ∧
      mapGet [("site_id", "mine"), ("note", "hi")] "site_id" = some "mine" ∧
      mapGet (order_metadata_after_build (some "chargegun") (some "CHARGEGUN")
        [("site_id", "mine"), ("note", "hi")]) "site_id" = some "mine") ∧
    (([("note", "hi")].map Prod.fst).Nodup ∧
      mapGet [("note", "hi")] "site_id" = none ∧
      mapGet (order_metadata_after_build (some "chargegun") (some "CHARGEGUN")
        [("note", "hi")]) "site_id" = some "chargegun" ∧
      mapGet [("note", "hi")] "statement_descriptor_suffix" = none ∧
      mapGet (order_metadata_after_build (some "chargegun") (some "CHARGEGUN")
        [("note", "hi")]) "statement_descriptor_suffix" = some "CHARGEGUN") :=
  ⟨⟨by decide, by decide,
    (metadata_merge_precedence (some "chargegun") (some "CHARGEGUN")
      [("site_id", "mine"), ("note", "hi")] (by decide)).1
      "site_id" "mine" (Or.inl rfl) (by decide)⟩,
   ⟨by decide, by decide,
    (metadata_merge_precedence (some "chargegun") (some "CHARGEGUN")
      [("note", "hi")] (by decide)).2.1 "chargegun" rfl (by decide),
    by decide,
    (metadata_merge_precedence (some "chargegun") (some "CHARGEGUN")
      [("note", "hi")] (by decide)).2.2 "CHARGEGUN" rfl (by decide)⟩⟩

end LightningCart
